import Mathlib

/-!
Verification development for the Yettel speed-camera mock backend
(mock-backend/server.py). The Python handlers are shallowly embedded:
the persisted JSON file becomes an explicit `FileState`, each HTTP
handler becomes a pure function from request data and file state to a
response (and a new file state for the mutating handlers). A parsed
Python datetime is a `PyDT`: its naive wall-clock reading in
microseconds together with its optional UTC offset, so that the
TypeError Python raises when a naive and an aware datetime are
compared or subtracted is modeled faithfully; an uncaught exception in
a handler (which FastAPI turns into an HTTP 500 response) is the
`error500` outcome of `HandlerResult`. The reports-listing handler is
embedded relative to an arbitrary model `fromiso` of the standard
library function datetime.fromisoformat, whose accepted grammar is
version-dependent; every theorem below is proved for all such models,
and concrete witnesses instantiate `fromiso` with `fromisoCommon`, a
fragment on which the Python behavior is unambiguous.
-/

namespace YettelMock

/-! ### Calendar arithmetic (model of Python `datetime` values) -/

/-- Gregorian leap-year test, as in Python `calendar.isleap`. -/
def isLeap (y : Nat) : Bool :=
  (y % 4 == 0 && y % 100 != 0) || (y % 400 == 0)

/-- Number of days in month `m` (1-12) of a year with leap flag `leap`. -/
def monthDays (leap : Bool) : Nat → Nat
  | 1 => 31
  | 2 => if leap then 29 else 28
  | 3 => 31
  | 4 => 30
  | 5 => 31
  | 6 => 30
  | 7 => 31
  | 8 => 31
  | 9 => 30
  | 10 => 31
  | 11 => 30
  | 12 => 31
  | _ => 0

/-- Days in the months strictly before month `m` within one year. -/
def daysBeforeMonth (leap : Bool) (m : Nat) : Nat :=
  (List.range (m - 1)).foldl (fun acc i => acc + monthDays leap (i + 1)) 0

/-- Number of leap years among years `1 .. y-1`. -/
def leapsBefore (y : Nat) : Nat :=
  (y - 1) / 4 - (y - 1) / 100 + (y - 1) / 400

/-- Total seconds of a calendar datetime since 0001-01-01T00:00:00. -/
def toSecs (y m d h mi s : Nat) : Nat :=
  let days := (y - 1) * 365 + leapsBefore y + daysBeforeMonth (isLeap y) m + (d - 1)
  days * 86400 + h * 3600 + mi * 60 + s

/-! ### Parsed datetimes and their Python semantics

Python datetime comparison and subtraction work at microsecond
precision; an aware value is compared after subtracting its UTC
offset, and mixing a naive with an aware value raises TypeError. -/

/-- A parsed Python datetime: its naive wall-clock reading in
microseconds on the proleptic Gregorian scale starting at year 1,
together with its UTC offset in microseconds (`none` for a naive
value, i.e. one without timezone information). -/
structure PyDT where
  wall : Nat
  off : Option Int := none
deriving DecidableEq, Repr

/-- Python comparison `a >= b` on datetimes: naive pairs compare by
wall clock, aware pairs compare as instants (wall minus offset), and a
naive/aware mix raises TypeError, modeled as `none`. -/
def pyGE (a b : PyDT) : Option Bool :=
  match a.off, b.off with
  | none, none => some (decide (b.wall ≤ a.wall))
  | some oa, some ob => some (decide ((b.wall : Int) - ob ≤ (a.wall : Int) - oa))
  | _, _ => none

/-- Python subtraction `a - b` on datetimes, in microseconds: defined
for two naive or two aware values, TypeError (`none`) on a mix. -/
def pySub (a b : PyDT) : Option Int :=
  match a.off, b.off with
  | none, none => some ((a.wall : Int) - b.wall)
  | some oa, some ob => some (((a.wall : Int) - oa) - ((b.wall : Int) - ob))
  | _, _ => none

/-! ### A concrete fromisoformat fragment

The witnesses and counterexamples below need a concrete model of
datetime.fromisoformat. `fromisoCommon` implements a fragment of its
grammar on which every supported CPython version agrees: a zero-padded
extended-format date YYYY-MM-DD, optionally followed by a literal T
and a time HH:MM, HH:MM:SS, HH:MM:SS.fff or HH:MM:SS.ffffff,
optionally followed by a colon-form offset +HH:MM or -HH:MM bounded
below 24 hours. Every string this fragment accepts is accepted by
Python with the same value, and the concrete strings the theorems
below rely on it rejecting (the empty string, x, garbage) are rejected
by Python as well. No theorem depends on the exact boundary of the
fragment: the claim theorems quantify over an arbitrary fromisoformat
model. -/

/-- Two-digit number, provided both characters are ASCII digits. -/
def num2? (a b : Char) : Option Nat :=
  if a.isDigit && b.isDigit then some ((a.toNat - 48) * 10 + (b.toNat - 48)) else none

/-- Three-digit number, provided all characters are ASCII digits. -/
def num3? (a b c : Char) : Option Nat :=
  if a.isDigit && b.isDigit && c.isDigit then
    some ((a.toNat - 48) * 100 + (b.toNat - 48) * 10 + (c.toNat - 48))
  else none

/-- Four-digit number, provided all characters are ASCII digits. -/
def num4? (a b c d : Char) : Option Nat :=
  if a.isDigit && b.isDigit && c.isDigit && d.isDigit then
    some ((a.toNat - 48) * 1000 + (b.toNat - 48) * 100 + (c.toNat - 48) * 10 + (d.toNat - 48))
  else none

/-- Parse the zero-padded date YYYY-MM-DD, with the range checks
Python performs (year 1-9999, day bounded by the month length). -/
def parseDate? : List Char → Option (Nat × Nat × Nat)
  | [y1, y2, y3, y4, '-', m1, m2, '-', d1, d2] =>
    match num4? y1 y2 y3 y4, num2? m1 m2, num2? d1 d2 with
    | some y, some m, some d =>
      if 1 ≤ y && y ≤ 9999 && 1 ≤ m && m ≤ 12 && 1 ≤ d && d ≤ monthDays (isLeap y) m
      then some (y, m, d) else none
    | _, _, _ => none
  | _ => none

/-- Parse a time of day HH:MM[:SS[.fff[fff]]] into hours, minutes,
seconds and microseconds, with the range checks Python performs. -/
def parseTimeCore? : List Char → Option (Nat × Nat × Nat × Nat)
  | [h1, h2, ':', m1, m2] =>
    match num2? h1 h2, num2? m1 m2 with
    | some h, some mi => if h ≤ 23 && mi ≤ 59 then some (h, mi, 0, 0) else none
    | _, _ => none
  | [h1, h2, ':', m1, m2, ':', s1, s2] =>
    match num2? h1 h2, num2? m1 m2, num2? s1 s2 with
    | some h, some mi, some s =>
      if h ≤ 23 && mi ≤ 59 && s ≤ 59 then some (h, mi, s, 0) else none
    | _, _, _ => none
  | [h1, h2, ':', m1, m2, ':', s1, s2, '.', f1, f2, f3] =>
    match num2? h1 h2, num2? m1 m2, num2? s1 s2, num3? f1 f2 f3 with
    | some h, some mi, some s, some f =>
      if h ≤ 23 && mi ≤ 59 && s ≤ 59 then some (h, mi, s, f * 1000) else none
    | _, _, _, _ => none
  | [h1, h2, ':', m1, m2, ':', s1, s2, '.', f1, f2, f3, f4, f5, f6] =>
    match num2? h1 h2, num2? m1 m2, num2? s1 s2, num3? f1 f2 f3, num3? f4 f5 f6 with
    | some h, some mi, some s, some fhi, some flo =>
      if h ≤ 23 && mi ≤ 59 && s ≤ 59 then some (h, mi, s, fhi * 1000 + flo) else none
    | _, _, _, _, _ => none
  | _ => none

/-- Parse the magnitude HH:MM of a timezone offset into microseconds;
Python requires the offset strictly below 24 hours. -/
def parseOffset? : List Char → Option Int
  | [h1, h2, ':', m1, m2] =>
    match num2? h1 h2, num2? m1 m2 with
    | some h, some m =>
      if h ≤ 23 && m ≤ 59 then some (((h * 3600 + m * 60 : Nat) : Int) * 1000000) else none
    | _, _ => none
  | _ => none

/-- Split a character list at the first + or - sign, as the Python
parser does to separate the time of day from the timezone offset. -/
def splitAtSign : List Char → List Char × Option (Char × List Char)
  | [] => ([], none)
  | c :: rest =>
    if c = '+' || c = '-' then ([], some (c, rest))
    else
      let (pre, post) := splitAtSign rest
      (c :: pre, post)

/-- The concrete fromisoformat fragment described above. A date alone
is a naive midnight; an offset makes the value aware. -/
def fromisoCommon (cs : List Char) : Option PyDT :=
  match parseDate? (cs.take 10) with
  | none => none
  | some (y, m, d) =>
    match cs.drop 10 with
    | [] => some { wall := toSecs y m d 0 0 0 * 1000000, off := none }
    | t :: timeRest =>
      if t = 'T' then
        match splitAtSign timeRest with
        | (timeCs, none) =>
          match parseTimeCore? timeCs with
          | none => none
          | some (h, mi, sec, micro) =>
            some { wall := toSecs y m d h mi sec * 1000000 + micro, off := none }
        | (timeCs, some (sgn, offCs)) =>
          match parseTimeCore? timeCs, parseOffset? offCs with
          | some (h, mi, sec, micro), some offMag =>
            some { wall := toSecs y m d h mi sec * 1000000 + micro,
                   off := some (if sgn = '-' then -offMag else offMag) }
          | _, _ => none
      else none

/-! ### The ISO parsing helper used by the handlers -/

/-- Does the character list end in Z, as in the Python endswith check. -/
def endsWithZ (cs : List Char) : Bool :=
  cs.getLast? == some 'Z'

/-- Replace every occurrence of Z by +00:00, as in the Python
single-character replace call. -/
def replaceZ : List Char → List Char
  | [] => []
  | c :: rest => (if c = 'Z' then ('+' :: '0' :: '0' :: ':' :: '0' :: '0' :: []) else [c]) ++ replaceZ rest

/-- Embedding of the helper at server.py lines 165-171, relative to a
model `fromiso` of datetime.fromisoformat: strip a trailing Z into an
explicit UTC offset, then delegate; a parse exception is caught and
becomes None, so this helper itself never raises. -/
def _parse_iso (fromiso : List Char → Option PyDT) (dt_str : String) : Option PyDT :=
  let cs := dt_str.data
  let cs := if endsWithZ cs then replaceZ cs else cs
  fromiso cs

/-! ### The persisted store

The store is the single JSON file avg_speed_reports.json holding an
array of report objects. A stored record is modeled with one optional
string per JSON key: `none` means the key is missing (a JSON null,
which every handler treats like a missing key via dict get, is
collapsed to `none` as well). The float fields are carried opaquely as
their JSON rendering, since no handler computes with them. -/

structure StoredReport where
  segmentName : Option String := none
  startCameraId : Option String := none
  endCameraId : Option String := none
  startedAt : Option String := none
  endedAt : Option String := none
  routeDistanceMeters : Option String := none
  avgSpeedKmH : Option String := none
  appVersion : Option String := none
  deviceId : Option String := none
deriving DecidableEq, Repr

/-- State of the JSON file: missing, present but failing json.load, or
present and parsed as an array of records. -/
inductive FileState where
  | absent : FileState
  | corrupt : FileState
  | parsed : List StoredReport → FileState
deriving DecidableEq, Repr

/-- Embedding of _load_reports (server.py lines 156-163): a missing
file or a json.load exception yields the empty list. -/
def _load_reports : FileState → List StoredReport
  | .absent => []
  | .corrupt => []
  | .parsed items => items

/-! ### Auth check and the POST handler -/

/-- Embedding of _auth_ok (server.py lines 111-113): accept a missing
header or any header starting with the seven characters of Bearer
followed by a space. -/
def _auth_ok : Option String → Bool
  | none => true
  | some a => List.isPrefixOf "Bearer ".data a.data

/-- A Python datetime value as validated by pydantic for the DTO
fields; `utc` records whether the value is timezone-aware (pydantic
serializes aware UTC values with a trailing Z, naive ones without). -/
structure PyDatetime where
  year : Nat
  month : Nat
  day : Nat
  hour : Nat
  minute : Nat
  second : Nat
  utc : Bool := true
deriving DecidableEq, Repr

/-- Linear second index of the datetime, used for comparison and
subtraction. -/
def PyDatetime.secs (t : PyDatetime) : Nat :=
  toSecs t.year t.month t.day t.hour t.minute t.second

/-- Zero-padded decimal rendering of width `w`. -/
def padNum (w n : Nat) : List Char :=
  let s := Nat.toDigits 10 n
  List.replicate (w - s.length) '0' ++ s

/-- ISO rendering produced by pydantic model_dump_json for a datetime
field: zero-padded date and time, with a trailing Z for UTC values. -/
def PyDatetime.isoString (t : PyDatetime) : String :=
  String.mk (padNum 4 t.year ++ ['-'] ++ padNum 2 t.month ++ ['-'] ++ padNum 2 t.day
    ++ ['T'] ++ padNum 2 t.hour ++ [':'] ++ padNum 2 t.minute ++ [':'] ++ padNum 2 t.second
    ++ (if t.utc then ['Z'] else []))

/-- Embedding of AvgSpeedReportDTO (server.py lines 49-58): every field
is required except deviceId; pydantic parses the two timestamp fields
into datetime values and performs no further validation. The two float
fields are carried as their JSON rendering. -/
structure AvgSpeedReportDTO where
  segmentName : String
  startCameraId : String
  endCameraId : String
  startedAt : PyDatetime
  endedAt : PyDatetime
  routeDistanceMeters : String
  avgSpeedKmH : String
  appVersion : String
  deviceId : Option String := none
deriving DecidableEq, Repr

/-- The record json.loads(report.model_dump_json()) appends to the
store: every DTO field under its JSON key, datetimes in ISO form. -/
def serializeReport (r : AvgSpeedReportDTO) : StoredReport :=
  { segmentName := some r.segmentName
    startCameraId := some r.startCameraId
    endCameraId := some r.endCameraId
    startedAt := some r.startedAt.isoString
    endedAt := some r.endedAt.isoString
    routeDistanceMeters := some r.routeDistanceMeters
    avgSpeedKmH := some r.avgSpeedKmH
    appVersion := some r.appVersion
    deviceId := r.deviceId }

/-- Response body of the POST handler. -/
inductive PostResponse where
  | ok : PostResponse
  | unauthorized : PostResponse
deriving DecidableEq, Repr

/-- Embedding of post_avg_speed (server.py lines 133-151): reject a
malformed auth header with the unauthorized body and no store change;
otherwise read the current array (missing file or json.load failure
giving the empty list, inline at lines 138-144), append the serialized
report and rewrite the file. -/
def post_avg_speed (report : AvgSpeedReportDTO) (authorization : Option String)
    (s : FileState) : FileState × PostResponse :=
  if !_auth_ok authorization then (s, .unauthorized)
  else
    let prev : List StoredReport :=
      match s with
      | .absent => []
      | .corrupt => []
      | .parsed items => items
    (.parsed (prev ++ [serializeReport report]), .ok)

/-! ### The GET /v1/traffic/reports handler -/

/-- Outcome of a handler call: a normal response, or an uncaught
exception that FastAPI turns into an HTTP 500 response. -/
inductive HandlerResult (α : Type) where
  | ok : α → HandlerResult α
  | error500 : HandlerResult α
deriving DecidableEq, Repr

/-- A record as returned by the reports listing: the stored record
together with the durationSec entry the handler adds to the dict in
memory (never written back to the file). The Python value is the
float total_seconds(); it is modeled as the exact rational number of
seconds of the microsecond difference. -/
structure OutReport where
  base : StoredReport
  durationSec : Option Rat
deriving DecidableEq, Repr

/-- Python string comparison: lexicographic on code points. -/
def charListLE : List Char → List Char → Bool
  | [], _ => true
  | _ :: _, [] => false
  | a :: as, b :: bs =>
    if a.toNat < b.toNat then true
    else if b.toNat < a.toNat then false
    else charListLE as bs

/-- Sort key of the handler: the endedAt string, empty if missing. -/
def outKey (r : OutReport) : List Char :=
  (r.base.endedAt.getD "").data

/-- The sort order of Python sorted with the endedAt string key. -/
def outLE (a b : OutReport) : Prop :=
  charListLE (outKey a) (outKey b) = true

instance : DecidableRel outLE := fun a b =>
  inferInstanceAs (Decidable (charListLE (outKey a) (outKey b) = true))

/-- The durationSec computation at server.py lines 192-195 for one
record: the subtraction of the parsed timestamps (which raises
TypeError, `none`, when one is naive and the other aware), converted
by total_seconds into seconds, or a null duration when either
timestamp fails to parse. -/
def withDuration (parse : String → Option PyDT) (r : StoredReport) : Option OutReport :=
  match parse (r.startedAt.getD ""), parse (r.endedAt.getD "") with
  | some a, some b =>
    match pySub b a with
    | some d => some { base := r, durationSec := some (mkRat d 1000000) }
    | none => none
  | _, _ => some { base := r, durationSec := none }

/-- The duration loop at server.py lines 192-195: annotate each record
in order; the first TypeError aborts the request. -/
def durStage (parse : String → Option PyDT) : List StoredReport → Option (List OutReport)
  | [] => some []
  | r :: rs =>
    match withDuration parse r, durStage parse rs with
    | some o, some rest => some (o :: rest)
    | _, _ => none

/-- A Python list comprehension with a predicate that can raise: the
whole comprehension raises if the predicate raises on any element. -/
def filterE {α : Type} (p : α → Option Bool) : List α → Option (List α)
  | [] => some []
  | x :: xs =>
    match p x, filterE p xs with
    | some b, some rest => some (if b then x :: rest else rest)
    | _, _ => none

/-- The since filter at server.py lines 181-187: skipped when since is
absent or empty (Python truthiness) or itself fails to parse;
otherwise it keeps the records whose endedAt parses and compares at
least the bound, where the comparison of a naive with an aware
datetime raises TypeError. The source parses endedAt twice behind a
short-circuit and; the second parse repeats the first, so one parse
is performed here. -/
def sinceFilter (parse : String → Option PyDT) (since : Option String)
    (items : List StoredReport) : Option (List StoredReport) :=
  match since with
  | none => some items
  | some sv =>
    if sv = "" then some items
    else
      match parse sv with
      | none => some items
      | some sdt =>
        filterE (fun r =>
          match parse (r.endedAt.getD "") with
          | none => some false
          | some et => pyGE et sdt) items

/-- The segment filter at server.py lines 188-189: skipped when segment
is absent or empty, otherwise an exact match on segmentName; it never
raises. -/
def segmentFilter (segment : Option String) (items : List StoredReport) : List StoredReport :=
  match segment with
  | none => items
  | some seg =>
    if seg = "" then items
    else items.filter fun r => r.segmentName == some seg

/-- Python list slice xs[i:] (used by the handler as items[-limit:]):
a nonnegative start drops that many from the front, a negative start
begins at length + i clamped to 0. -/
def pySliceFrom {α : Type} (i : Int) (xs : List α) : List α :=
  if 0 ≤ i then xs.drop i.toNat
  else xs.drop ((xs.length + i).toNat)

/-- Embedding of list_reports (server.py lines 173-199), the query
operation, relative to a fromisoformat model: load, filter by since
and segment, annotate durationSec, sort ascending by the endedAt
string (Python sorted is a stable sort; it is modeled by insertion
sort, which is stable), and keep the slice items[-limit:]. A TypeError
raised in the since filter or in the duration loop aborts the request
with an HTTP 500. The handler performs no file write. Default limit
is 200. -/
def list_reports (fromiso : List Char → Option PyDT) (limit : Int)
    (since segment : Option String) (s : FileState) : HandlerResult (List OutReport) :=
  match sinceFilter (_parse_iso fromiso) since (_load_reports s) with
  | none => .error500
  | some items =>
    match durStage (_parse_iso fromiso) (segmentFilter segment items) with
    | none => .error500
    | some items => .ok (pySliceFrom (-limit) (items.insertionSort outLE))

/-- The filtered, duration-annotated and sorted sequence the handler
builds before applying the limit slice (server.py lines 179-198), when
no exception occurs. -/
def sortedOut (fromiso : List Char → Option PyDT) (since segment : Option String)
    (s : FileState) : Option (List OutReport) :=
  match sinceFilter (_parse_iso fromiso) since (_load_reports s) with
  | none => none
  | some items =>
    match durStage (_parse_iso fromiso) (segmentFilter segment items) with
    | none => none
    | some items => some (items.insertionSort outLE)

/-- Embedding of reports_stats (server.py lines 201-205): the total
count and the Counter of segmentName values (missing name counted
under the empty string), modeled as a counting function. -/
def reports_stats (s : FileState) : Nat × (String → Nat) :=
  let items := _load_reports s
  (items.length, fun name => (items.filter fun r => (r.segmentName.getD "") == name).length)

/-- One CSV data row (server.py lines 210-219): the nine fields in
fixed order, missing fields rendered as empty strings. Cells are
modeled before CSV quoting. -/
def csvRow (r : StoredReport) : List String :=
  [r.segmentName.getD "", r.startCameraId.getD "", r.endCameraId.getD "",
   r.startedAt.getD "", r.endedAt.getD "", r.routeDistanceMeters.getD "",
   r.avgSpeedKmH.getD "", r.appVersion.getD "", r.deviceId.getD ""]

/-- Embedding of export_reports_csv (server.py lines 207-225): header
row followed by one row per stored record, unfiltered. -/
def export_reports_csv (s : FileState) : List (List String) :=
  ["segmentName", "startCameraId", "endCameraId", "startedAt", "endedAt",
   "routeDistanceMeters", "avgSpeedKmH", "appVersion", "deviceId"]
    :: (_load_reports s).map csvRow

/-- Response body of the DELETE handler. -/
inductive ClearResponse where
  | confirmRequired : ClearResponse
  | cleared : ClearResponse
deriving DecidableEq, Repr

/-- Embedding of clear_reports (server.py lines 227-234): any confirm
value other than YES leaves the file untouched and answers with the
confirm-required hint; YES removes the file (if present) and answers
with the ok/cleared body. Default confirm is NO. -/
def clear_reports (confirm : String) (s : FileState) : FileState × ClearResponse :=
  if confirm ≠ "YES" then (s, .confirmRequired)
  else (.absent, .cleared)

/-! ### Seed catalog and the camera/segment GET handlers

Coordinates and radii are Python floats in the source; they are
embedded as exact rationals, which is faithful for every operation the
handlers perform on them (none). -/

/-- Embedding of CameraDTO (server.py lines 37-41). -/
structure CameraDTO where
  id : String
  lat : Rat
  lng : Rat
  direction : Option Rat := none
deriving Repr

/-- Embedding of SegmentDTO (server.py lines 43-47). -/
structure SegmentDTO where
  name : String
  startCameraId : String
  endCameraId : String
  geofenceRadius : Option Rat := some 300
deriving Repr

/-- Seed camera table (server.py lines 62-71). -/
def CAMERAS : List CameraDTO :=
  [ { id := "SOF-A1", lat := 42.6281474, lng := 23.3711704, direction := some 270.0 },
    { id := "SOF-B1", lat := 42.6199365, lng := 23.3664081, direction := some 270.0 },
    { id := "SOF-C1", lat := 42.6321474, lng := 23.3791704, direction := some 180.0 },
    { id := "SOF-D1", lat := 42.6241474, lng := 23.3841704, direction := some 90.0 },
    { id := "SOF-E1", lat := 42.6161474, lng := 23.3721704, direction := some 45.0 },
    { id := "SOF-F1", lat := 42.6211474, lng := 23.3811704, direction := some 315.0 },
    { id := "SOF-G1", lat := 42.6291474, lng := 23.3601704, direction := some 225.0 },
    { id := "SOF-H1", lat := 42.6139474, lng := 23.3526704, direction := some 135.0 } ]

/-- Seed segment table (server.py lines 74-83). -/
def SEGMENTS : List SegmentDTO :=
  [ { name := "A→C", startCameraId := "SOF-A1", endCameraId := "SOF-C1", geofenceRadius := some 50 },
    { name := "C→D", startCameraId := "SOF-C1", endCameraId := "SOF-D1", geofenceRadius := some 50 },
    { name := "D→F", startCameraId := "SOF-D1", endCameraId := "SOF-F1", geofenceRadius := some 20 },
    { name := "F→B", startCameraId := "SOF-F1", endCameraId := "SOF-B1", geofenceRadius := some 20 },
    { name := "B→E", startCameraId := "SOF-B1", endCameraId := "SOF-E1", geofenceRadius := some 50 },
    { name := "E→G", startCameraId := "SOF-E1", endCameraId := "SOF-G1", geofenceRadius := some 50 },
    { name := "G→H", startCameraId := "SOF-G1", endCameraId := "SOF-H1", geofenceRadius := some 50 },
    { name := "H→A", startCameraId := "SOF-H1", endCameraId := "SOF-A1", geofenceRadius := some 50 } ]

/-- Embedding of get_cameras (server.py lines 121-125): a failed auth
check answers with the empty list, not with a status body. -/
def get_cameras (authorization : Option String) : List CameraDTO :=
  if !_auth_ok authorization then [] else CAMERAS

/-- Embedding of get_segments (server.py lines 127-131). -/
def get_segments (authorization : Option String) : List SegmentDTO :=
  if !_auth_ok authorization then [] else SEGMENTS

/-! ### The duplicated router handlers

Server.py lines 235-316 register a second copy of the four admin
handlers on an APIRouter under the same /v1/traffic path prefix, with
their own copies of the load and parse helpers. They are embedded
separately, transliterated from their own source lines, relative to
the same fromisoformat model (both copies call the same standard
library function). -/

/-- Embedding of _load_reports2 (server.py lines 245-252). -/
def _load_reports2 : FileState → List StoredReport
  | .absent => []
  | .corrupt => []
  | .parsed items => items

/-- Embedding of _parse_iso2 (server.py lines 254-260). -/
def _parse_iso2 (fromiso : List Char → Option PyDT) (dt_str : String) : Option PyDT :=
  let cs := dt_str.data
  let cs := if endsWithZ cs then replaceZ cs else cs
  fromiso cs

/-- Embedding of list_reports2 (server.py lines 262-279), the router
copy of the reports listing, written inline as in the source. -/
def list_reports2 (fromiso : List Char → Option PyDT) (limit : Int)
    (since segment : Option String) (s : FileState) : HandlerResult (List OutReport) :=
  match (match since with
         | none => some (_load_reports2 s)
         | some sv =>
           if sv = "" then some (_load_reports2 s)
           else
             match _parse_iso2 fromiso sv with
             | none => some (_load_reports2 s)
             | some sdt =>
               filterE (fun r =>
                 match _parse_iso2 fromiso (r.endedAt.getD "") with
                 | none => some false
                 | some et => pyGE et sdt) (_load_reports2 s)) with
  | none => .error500
  | some items =>
    match durStage (_parse_iso2 fromiso)
        (match segment with
         | none => items
         | some seg =>
           if seg = "" then items
           else items.filter fun r => r.segmentName == some seg) with
    | none => .error500
    | some items => .ok (pySliceFrom (-limit) (items.insertionSort outLE))

/-- Embedding of reports_stats2 (server.py lines 281-285). -/
def reports_stats2 (s : FileState) : Nat × (String → Nat) :=
  let items := _load_reports2 s
  (items.length, fun name => (items.filter fun r => (r.segmentName.getD "") == name).length)

/-- Embedding of export_reports_csv2 (server.py lines 287-305). -/
def export_reports_csv2 (s : FileState) : List (List String) :=
  ["segmentName", "startCameraId", "endCameraId", "startedAt", "endedAt",
   "routeDistanceMeters", "avgSpeedKmH", "appVersion", "deviceId"]
    :: (_load_reports2 s).map csvRow

/-- Embedding of clear_reports2 (server.py lines 307-313). -/
def clear_reports2 (confirm : String) (s : FileState) : FileState × ClearResponse :=
  if confirm ≠ "YES" then (s, .confirmRequired)
  else (.absent, .cleared)

/-! ### Sample data used by witnesses and counterexamples -/

/-- Aware UTC datetime 2025-01-01T10:00:00Z. -/
def dtA : PyDatetime := { year := 2025, month := 1, day := 1, hour := 10, minute := 0, second := 0 }

/-- Aware UTC datetime 2025-01-01T10:01:00Z, one minute after dtA. -/
def dtB : PyDatetime := { year := 2025, month := 1, day := 1, hour := 10, minute := 1, second := 0 }

/-- A well-formed report submission matching the spec example. -/
def sampleReport : AvgSpeedReportDTO :=
  { segmentName := "A→C", startCameraId := "SOF-A1", endCameraId := "SOF-C1",
    startedAt := dtA, endedAt := dtB,
    routeDistanceMeters := "500.0", avgSpeedKmH := "30.0", appVersion := "1.0" }

/-- A submission whose end timestamp is strictly before its start. -/
def reversedReport : AvgSpeedReportDTO :=
  { segmentName := "A→C", startCameraId := "SOF-A1", endCameraId := "SOF-C1",
    startedAt := dtB, endedAt := dtA,
    routeDistanceMeters := "500.0", avgSpeedKmH := "30.0", appVersion := "1.0" }

/-- A stored record whose endedAt does not parse as a timestamp
(Python rejects the string garbage as well). -/
def badReport : StoredReport := { endedAt := some "garbage" }

/-- A stored record with aware UTC timestamps one minute apart. -/
def goodReport : StoredReport :=
  { segmentName := some "A→C",
    startedAt := some "2025-01-01T10:00:00Z",
    endedAt := some "2025-01-01T10:01:00Z" }

/-- A stored record mixing a naive start with an aware end: the
duration subtraction raises TypeError in Python. -/
def mixedReport : StoredReport :=
  { startedAt := some "2025-01-01T00:00:00",
    endedAt := some "2025-01-01T00:00:00Z" }

/-- A stored record with aware +02:00 timestamps thirty minutes
apart. -/
def tzReport : StoredReport :=
  { segmentName := some "A→C",
    startedAt := some "2025-01-01T10:00:00+02:00",
    endedAt := some "2025-01-01T10:30:00+02:00" }

/-- The annotated form of goodReport: sixty seconds of duration. -/
def goodOut : OutReport := { base := goodReport, durationSec := some 60 }

/-- The annotated form of badReport: null duration. -/
def badOut : OutReport := { base := badReport, durationSec := none }

/-- The annotated form of tzReport: 1800 seconds of duration. -/
def tzOut : OutReport := { base := tzReport, durationSec := some 1800 }

/-- The parsed value of 2025-01-01T10:00:00Z: an aware instant. -/
def sinceDT : PyDT := { wall := toSecs 2025 1 1 10 0 0 * 1000000, off := some 0 }

/-! ### Helper lemmas -/

lemma charListLE_total (as bs : List Char) :
    charListLE as bs = true ∨ charListLE bs as = true := by
  induction as generalizing bs with
  | nil => exact Or.inl rfl
  | cons a as ih =>
    cases bs with
    | nil => exact Or.inr rfl
    | cons b bs =>
      by_cases h1 : a.toNat < b.toNat
      · left
        simp [charListLE, h1]
      · by_cases h2 : b.toNat < a.toNat
        · right
          simp [charListLE, h2]
        · simpa [charListLE, h1, h2] using ih bs

lemma charListLE_trans (as bs cs : List Char) (h1 : charListLE as bs = true)
    (h2 : charListLE bs cs = true) : charListLE as cs = true := by
  induction as generalizing bs cs with
  | nil => rfl
  | cons a as ih =>
    cases bs with
    | nil => simp [charListLE] at h1
    | cons b bs =>
      cases cs with
      | nil => simp [charListLE] at h2
      | cons c cs =>
        by_cases hab : a.toNat < b.toNat
        · by_cases hbc : b.toNat < c.toNat
          · simp [charListLE, show a.toNat < c.toNat from by omega]
          · by_cases hcb : c.toNat < b.toNat
            · simp [charListLE, hbc, hcb] at h2
            · simp [charListLE, show a.toNat < c.toNat from by omega]
        · by_cases hba : b.toNat < a.toNat
          · simp [charListLE, hab, hba] at h1
          · simp only [charListLE, if_neg hab, if_neg hba] at h1
            by_cases hbc : b.toNat < c.toNat
            · simp [charListLE, show a.toNat < c.toNat from by omega]
            · by_cases hcb : c.toNat < b.toNat
              · simp [charListLE, hbc, hcb] at h2
              · simp only [charListLE, if_neg hbc, if_neg hcb] at h2
                have hac : ¬ a.toNat < c.toNat := by omega
                have hca : ¬ c.toNat < a.toNat := by omega
                simp only [charListLE, if_neg hac, if_neg hca]
                exact ih bs cs h1 h2

instance : IsTotal OutReport outLE :=
  ⟨fun a b => charListLE_total (outKey a) (outKey b)⟩

instance : IsTrans OutReport outLE :=
  ⟨fun _ _ _ => charListLE_trans _ _ _⟩

lemma pySliceFrom_subset {α : Type} (i : Int) (xs : List α) : pySliceFrom i xs ⊆ xs := by
  unfold pySliceFrom
  split
  · exact List.drop_subset _ _
  · exact List.drop_subset _ _

/-- For a positive limit, the slice items[-limit:] keeps the final
min(limit, length) elements. -/
lemma pySliceFrom_neg {α : Type} (limit : Int) (h : 1 ≤ limit) (xs : List α) :
    pySliceFrom (-limit) xs = xs.drop (xs.length - limit.toNat) := by
  unfold pySliceFrom
  rw [if_neg (by omega : ¬ (0:Int) ≤ -limit)]
  congr 1
  omega

lemma segmentFilter_subset (segment : Option String) (items : List StoredReport) :
    segmentFilter segment items ⊆ items := by
  intro x hx
  cases segment with
  | none => exact hx
  | some seg =>
    simp only [segmentFilter] at hx
    by_cases h : seg = ""
    · rw [if_pos h] at hx
      exact hx
    · rw [if_neg h] at hx
      exact List.mem_of_mem_filter hx

/-- Membership in a successful fallible comprehension: the element came
from the input and the predicate returned true on it. -/
lemma filterE_mem {α : Type} {p : α → Option Bool} :
    ∀ {xs l : List α}, filterE p xs = some l → ∀ {a : α}, a ∈ l → a ∈ xs ∧ p a = some true := by
  intro xs
  induction xs with
  | nil =>
    intro l h a ha
    simp only [filterE, Option.some.injEq] at h
    subst h
    cases ha
  | cons x xs ih =>
    intro l h a ha
    cases hpx : p x with
    | none =>
      unfold filterE at h
      rw [hpx] at h
      simp at h
    | some b =>
      cases hrec : filterE p xs with
      | none =>
        unfold filterE at h
        rw [hpx, hrec] at h
        simp at h
      | some rest =>
        unfold filterE at h
        rw [hpx, hrec] at h
        injection h with h
        subst h
        cases b with
        | true =>
          rw [if_pos rfl] at ha
          rcases List.mem_cons.mp ha with h1 | h1
          · subst h1
            exact ⟨List.mem_cons_self _ _, hpx⟩
          · obtain ⟨h2, h3⟩ := ih hrec h1
            exact ⟨List.mem_cons_of_mem _ h2, h3⟩
        | false =>
          rw [if_neg Bool.false_ne_true] at ha
          obtain ⟨h2, h3⟩ := ih hrec ha
          exact ⟨List.mem_cons_of_mem _ h2, h3⟩

/-- Membership in a successful duration loop: every output record is
the annotation of some input record. -/
lemma durStage_mem {parse : String → Option PyDT} :
    ∀ {xs : List StoredReport} {l : List OutReport}, durStage parse xs = some l →
      ∀ {o : OutReport}, o ∈ l → ∃ a ∈ xs, withDuration parse a = some o := by
  intro xs
  induction xs with
  | nil =>
    intro l h o ho
    simp only [durStage, Option.some.injEq] at h
    subst h
    cases ho
  | cons r rs ih =>
    intro l h o ho
    cases hw : withDuration parse r with
    | none =>
      unfold durStage at h
      rw [hw] at h
      simp at h
    | some o1 =>
      cases hrec : durStage parse rs with
      | none =>
        unfold durStage at h
        rw [hw, hrec] at h
        simp at h
      | some rest =>
        unfold durStage at h
        rw [hw, hrec] at h
        injection h with h
        subst h
        rcases List.mem_cons.mp ho with h1 | h1
        · subst h1
          exact ⟨r, List.mem_cons_self _ _, hw⟩
        · obtain ⟨a, h2, h3⟩ := ih hrec h1
          exact ⟨a, List.mem_cons_of_mem _ h2, h3⟩

/-- A successful annotation keeps the stored record unchanged. -/
lemma withDuration_some_base {parse : String → Option PyDT} {r : StoredReport} {o : OutReport}
    (h : withDuration parse r = some o) : o.base = r := by
  unfold withDuration at h
  cases hst : parse (r.startedAt.getD "") with
  | none =>
    rw [hst] at h
    injection h with h
    rw [← h]
  | some a =>
    cases het : parse (r.endedAt.getD "") with
    | none =>
      rw [hst, het] at h
      injection h with h
      rw [← h]
    | some b =>
      cases hd : pySub b a with
      | none =>
        simp [hst, het, hd] at h
      | some d =>
        simp only [hst, het, hd] at h
        injection h with h
        rw [← h]

/-- When the pre-slice pipeline succeeds, the handler answers with the
limit slice of it, for every limit. -/
lemma list_reports_of_sortedOut {fromiso : List Char → Option PyDT}
    {since segment : Option String} {s : FileState} {sorted : List OutReport}
    (h : sortedOut fromiso since segment s = some sorted) (limit : Int) :
    list_reports fromiso limit since segment s = .ok (pySliceFrom (-limit) sorted) := by
  cases hs : sinceFilter (_parse_iso fromiso) since (_load_reports s) with
  | none => simp [sortedOut, hs] at h
  | some items1 =>
    cases hd : durStage (_parse_iso fromiso) (segmentFilter segment items1) with
    | none => simp [sortedOut, hs, hd] at h
    | some items2 =>
      simp only [sortedOut, hs, hd, Option.some.injEq] at h
      subst h
      simp only [list_reports, hs, hd]

/-- The pre-slice pipeline output is sorted under the endedAt string
order. -/
lemma sortedOut_sorted {fromiso : List Char → Option PyDT} {since segment : Option String}
    {s : FileState} {sorted : List OutReport}
    (h : sortedOut fromiso since segment s = some sorted) : List.Sorted outLE sorted := by
  cases hs : sinceFilter (_parse_iso fromiso) since (_load_reports s) with
  | none => simp [sortedOut, hs] at h
  | some items1 =>
    cases hd : durStage (_parse_iso fromiso) (segmentFilter segment items1) with
    | none => simp [sortedOut, hs, hd] at h
    | some items2 =>
      simp only [sortedOut, hs, hd, Option.some.injEq] at h
      subst h
      exact List.sorted_insertionSort outLE _

/-- Every record delivered by a successful listing call is the
annotation of a record that survived both filters. -/
lemma mem_of_mem_list_reports {fromiso : List Char → Option PyDT} {limit : Int}
    {since segment : Option String} {s : FileState} {out : List OutReport} {o : OutReport}
    (hok : list_reports fromiso limit since segment s = .ok out) (ho : o ∈ out) :
    ∃ items1, sinceFilter (_parse_iso fromiso) since (_load_reports s) = some items1
      ∧ ∃ a ∈ segmentFilter segment items1, withDuration (_parse_iso fromiso) a = some o := by
  cases hs : sinceFilter (_parse_iso fromiso) since (_load_reports s) with
  | none => simp [list_reports, hs] at hok
  | some items1 =>
    cases hd : durStage (_parse_iso fromiso) (segmentFilter segment items1) with
    | none => simp [list_reports, hs, hd] at hok
    | some items2 =>
      simp only [list_reports, hs, hd, HandlerResult.ok.injEq] at hok
      subst hok
      have h1 : o ∈ items2.insertionSort outLE := pySliceFrom_subset _ _ ho
      rw [List.mem_insertionSort] at h1
      exact ⟨items1, rfl, durStage_mem hd h1⟩

/-! ### Claim theorems -/

/-- C1: append round-trip. For every persisted store state and every
report accepted by the POST avg-speed-report handler (answered with
the ok body), a subsequent load returns the previous sequence with the
JSON-serialized report appended as the last element, every prior
element unchanged and in its original order. -/
theorem append_roundtrip (r : AvgSpeedReportDTO) (authorization : Option String)
    (s : FileState) (h : (post_avg_speed r authorization s).2 = .ok) :
    _load_reports (post_avg_speed r authorization s).1
      = _load_reports s ++ [serializeReport r] := by
  by_cases ha : _auth_ok authorization = true
  · cases s <;> simp [post_avg_speed, ha, _load_reports]
  · rw [Bool.not_eq_true] at ha
    simp [post_avg_speed, ha] at h

/-- Witness for C1 at a concrete accepted report over the empty store. -/
theorem append_roundtrip_witness :
    _load_reports (post_avg_speed sampleReport none .absent).1
      = _load_reports .absent ++ [serializeReport sampleReport] :=
  append_roundtrip sampleReport none .absent (by decide)

/-- C2: clear guard. For every store state, a confirm value other than
YES leaves the persisted sequence untouched and answers with the
confirm-required message, while confirm equal to YES answers with the
ok/cleared body and leaves a store from which a subsequent load
returns the empty sequence. -/
theorem clear_guard (confirm : String) (s : FileState) :
    (confirm ≠ "YES" → clear_reports confirm s = (s, .confirmRequired)) ∧
    (clear_reports "YES" s).2 = .cleared ∧
    _load_reports (clear_reports "YES" s).1 = [] := by
  refine ⟨fun h => ?_, ?_, ?_⟩
  · simp [clear_reports, h]
  · simp [clear_reports]
  · simp [clear_reports, _load_reports]

/-- Witness for C2: a rejected clear on a singleton store. -/
theorem clear_guard_witness :
    clear_reports "NO" (.parsed [goodReport]) = (.parsed [goodReport], .confirmRequired) :=
  (clear_guard "NO" (.parsed [goodReport])).1 (by decide)

/-- C3 counterexample: with the non-empty since value x — which Python
rejects as a timestamp, so the handler skips the filter — the result
still contains a stored record whose endedAt does not parse, so the
since filter did not exclude it. -/
theorem since_filter_cex :
    ("x" : String) ≠ "" ∧
    _parse_iso fromisoCommon (badReport.endedAt.getD "") = none ∧
    list_reports fromisoCommon 200 (some "x") none (.parsed [badReport]) = .ok [badOut] := by
  refine ⟨by decide, by decide, by decide⟩

/-- C3 amended: for every model of fromisoformat, every since value
that is non-empty and parses as a timestamp, and every listing call
that completes without an exception, every record in the result has an
endedAt that parses and compares at least the since bound under the
Python datetime comparison; records with unparsable endedAt are
excluded. (As stated the claim fails for a non-empty since value that
does not parse, where the handler skips the filter entirely; and a
call on which the naive/aware comparison raises TypeError answers
with an HTTP 500 instead of a filtered sequence.) -/
theorem since_filter_sound (fromiso : List Char → Option PyDT) (limit : Int) (sv : String)
    (segment : Option String) (s : FileState) (sdt : PyDT) (out : List OutReport)
    (hsv : sv ≠ "") (hp : _parse_iso fromiso sv = some sdt)
    (hok : list_reports fromiso limit (some sv) segment s = .ok out)
    (o : OutReport) (ho : o ∈ out) :
    ∃ et, _parse_iso fromiso (o.base.endedAt.getD "") = some et ∧ pyGE et sdt = some true := by
  obtain ⟨items1, hs1, a, ha, hwd⟩ := mem_of_mem_list_reports hok ho
  have hbase := withDuration_some_base hwd
  have ha1 : a ∈ items1 := segmentFilter_subset _ _ ha
  simp only [sinceFilter, if_neg hsv, hp] at hs1
  obtain ⟨-, hpred⟩ := filterE_mem hs1 ha1
  rw [hbase]
  revert hpred
  cases hpe : _parse_iso fromiso (a.endedAt.getD "") with
  | none =>
    intro hpred
    simp at hpred
  | some et =>
    intro hpred
    exact ⟨et, rfl, hpred⟩

/-- Witness for C3 amended: a parsable since bound retains the record
ending one minute later, whose endedAt indeed parses above the bound. -/
theorem since_filter_sound_witness :
    ∃ et, _parse_iso fromisoCommon (goodOut.base.endedAt.getD "") = some et
      ∧ pyGE et sinceDT = some true :=
  since_filter_sound fromisoCommon 200 "2025-01-01T10:00:00Z" none (.parsed [goodReport])
    sinceDT [goodOut] (by decide) (by decide) (by decide) goodOut (by decide)

/-- C4 counterexample: with limit 0 over a two-element store the
handler returns both records, not the last zero records. -/
theorem limit_zero_cex :
    list_reports fromisoCommon 0 none none (.parsed [goodReport, badReport])
      = .ok [goodOut, badOut] ∧
    ([goodOut, badOut] : List OutReport).length = 2 := by
  refine ⟨by decide, by decide⟩

/-- C4 amended: for every model of fromisoformat, every limit of at
least 1, and every listing call whose pre-slice pipeline completes
without an exception, the handler returns exactly the final
min(limit, n) elements of the sequence sorted ascending by string
comparison of the endedAt field, which is indeed sorted under that
order. (As stated the claim fails at limit 0, where the slice
items[-0:] returns everything; and a call on which the since filter or
the duration loop raises TypeError answers with an HTTP 500 before
sorting.) -/
theorem sort_and_truncate (fromiso : List Char → Option PyDT) (limit : Int) (hl : 1 ≤ limit)
    (since segment : Option String) (s : FileState) (sorted : List OutReport)
    (hs : sortedOut fromiso since segment s = some sorted) :
    list_reports fromiso limit since segment s
      = .ok (sorted.drop (sorted.length - limit.toNat)) ∧
    List.Sorted outLE sorted ∧
    (sorted.drop (sorted.length - limit.toNat)).length = min limit.toNat sorted.length := by
  refine ⟨?_, sortedOut_sorted hs, ?_⟩
  · rw [list_reports_of_sortedOut hs limit, pySliceFrom_neg limit hl]
  · rw [List.length_drop]
    omega

/-- Witness for C4 amended at limit 2 over a two-element store. -/
theorem sort_and_truncate_witness :
    list_reports fromisoCommon 2 none none (.parsed [goodReport, badReport])
      = .ok (([goodOut, badOut] : List OutReport).drop
          (([goodOut, badOut] : List OutReport).length - (2 : Int).toNat)) ∧
    List.Sorted outLE [goodOut, badOut] ∧
    (([goodOut, badOut] : List OutReport).drop
        (([goodOut, badOut] : List OutReport).length - (2 : Int).toNat)).length
      = min (2 : Int).toNat ([goodOut, badOut] : List OutReport).length :=
  sort_and_truncate fromisoCommon 2 (by decide) none none (.parsed [goodReport, badReport])
    [goodOut, badOut] (by decide)

/-- C5: storage failure policy. A missing or unparsable file loads as
the empty sequence with no error surfaced, and the POST handler under
the same conditions treats the current sequence as empty and appends
to it. -/
theorem storage_failure_empty :
    _load_reports .absent = [] ∧
    _load_reports .corrupt = [] ∧
    (∀ (r : AvgSpeedReportDTO) (authorization : Option String),
      _auth_ok authorization = true →
        post_avg_speed r authorization .absent = (.parsed [serializeReport r], .ok) ∧
        post_avg_speed r authorization .corrupt = (.parsed [serializeReport r], .ok)) := by
  refine ⟨rfl, rfl, fun r authorization h => ⟨?_, ?_⟩⟩ <;> simp [post_avg_speed, h]

/-- Witness for C5: appending to a missing file starts from empty. -/
theorem storage_failure_empty_witness :
    post_avg_speed sampleReport none .absent
      = (.parsed [serializeReport sampleReport], .ok) :=
  (storage_failure_empty.2.2 sampleReport none rfl).1

/-- C6: durationSec derivation. For every model of fromisoformat and
every successful listing call, every returned record carries
durationSec equal to the difference in seconds of its parsed end and
start timestamps (the Python subtraction, which succeeded: a record
whose subtraction raises TypeError makes the whole call answer 500 and
returns nothing), or null when either timestamp fails to parse. The
value is computed at query time on the in-memory copy: the handler
writes nothing back, and the persisted record type has no durationSec
field (it lives only on the returned OutReport). -/
theorem durationSec_from_timestamps (fromiso : List Char → Option PyDT) (limit : Int)
    (since segment : Option String) (s : FileState) (out : List OutReport)
    (hok : list_reports fromiso limit since segment s = .ok out)
    (o : OutReport) (ho : o ∈ out) :
    (match _parse_iso fromiso (o.base.startedAt.getD ""),
           _parse_iso fromiso (o.base.endedAt.getD "") with
     | some st, some et => ∃ d : Int, pySub et st = some d
         ∧ o.durationSec = some (mkRat d 1000000)
     | _, _ => o.durationSec = none) := by
  obtain ⟨items1, hs1, a, ha, hwd⟩ := mem_of_mem_list_reports hok ho
  have hbase := withDuration_some_base hwd
  rw [hbase]
  unfold withDuration at hwd
  cases hst : _parse_iso fromiso (a.startedAt.getD "") with
  | none =>
    simp only [hst] at hwd ⊢
    injection hwd with hwd
    rw [← hwd]
  | some st =>
    cases het : _parse_iso fromiso (a.endedAt.getD "") with
    | none =>
      simp only [hst, het] at hwd ⊢
      injection hwd with hwd
      rw [← hwd]
    | some et =>
      cases hd : pySub et st with
      | none =>
        simp [hst, het, hd] at hwd
      | some d =>
        simp only [hst, het, hd] at hwd ⊢
        injection hwd with hwd
        exact ⟨d, rfl, by rw [← hwd]⟩

/-- Witness for C6 at a record with +02:00 timestamps thirty minutes
apart: durationSec is 1800 seconds. -/
theorem durationSec_from_timestamps_witness :
    (match _parse_iso fromisoCommon (tzOut.base.startedAt.getD ""),
           _parse_iso fromisoCommon (tzOut.base.endedAt.getD "") with
     | some st, some et => ∃ d : Int, pySub et st = some d
         ∧ tzOut.durationSec = some (mkRat d 1000000)
     | _, _ => tzOut.durationSec = none) :=
  durationSec_from_timestamps fromisoCommon 200 none none (.parsed [tzReport])
    [tzOut] (by decide) tzOut (by decide)

/-- C7 counterexample: a present but malformed Authorization header
makes get_cameras answer with the empty camera list, not with the
unauthorized status body the claim requires (the camera table itself
is non-empty, so this is not normal processing either). -/
theorem auth_rejection_cex :
    _auth_ok (some "Basic abc") = false ∧
    get_cameras (some "Basic abc") = [] ∧
    get_cameras none = CAMERAS ∧
    CAMERAS ≠ [] := by
  refine ⟨rfl, rfl, rfl, ?_⟩
  simp [CAMERAS]

/-- C7 amended: a malformed Authorization header yields the
unauthorized status body on the POST handler but the empty list on the
camera and segment GET handlers; an absent header, or one starting
with Bearer and a space, is accepted and the request proceeds
normally. -/
theorem auth_policy :
    (∀ a : String, _auth_ok (some a) = false →
        get_cameras (some a) = [] ∧
        get_segments (some a) = [] ∧
        (∀ (r : AvgSpeedReportDTO) (s : FileState),
          post_avg_speed r (some a) s = (s, .unauthorized))) ∧
    (∀ authorization : Option String, _auth_ok authorization = true →
        get_cameras authorization = CAMERAS ∧
        get_segments authorization = SEGMENTS ∧
        (∀ (r : AvgSpeedReportDTO) (s : FileState),
          post_avg_speed r authorization s
            = (.parsed (_load_reports s ++ [serializeReport r]), .ok))) := by
  constructor
  · intro a h
    refine ⟨?_, ?_, fun r s => ?_⟩ <;> simp [get_cameras, get_segments, post_avg_speed, h]
  · intro authorization h
    refine ⟨by simp [get_cameras, h], by simp [get_segments, h], fun r s => ?_⟩
    cases s <;> simp [post_avg_speed, h, _load_reports]

/-- Witness for C7 amended at a concrete malformed header. -/
theorem auth_policy_witness :
    get_cameras (some "Basic xyz") = [] ∧
    get_segments (some "Basic xyz") = [] ∧
    (∀ (r : AvgSpeedReportDTO) (s : FileState),
      post_avg_speed r (some "Basic xyz") s = (s, .unauthorized)) :=
  auth_policy.1 "Basic xyz" (by decide)

/-- C8 counterexample: a report whose end timestamp is strictly before
its start timestamp is accepted by the POST handler with the ok body
and appended to the store; no ordering validation exists. -/
theorem timestamp_order_cex :
    reversedReport.endedAt.secs < reversedReport.startedAt.secs ∧
    post_avg_speed reversedReport none .absent
      = (.parsed [serializeReport reversedReport], .ok) := by
  refine ⟨by decide, by decide⟩

/-- C8 amended: the POST handler validates only the auth header (field
presence and types being enforced by the DTO): any well-typed report
is accepted and appended regardless of the order of its start and end
timestamps. -/
theorem post_ignores_timestamp_order (r : AvgSpeedReportDTO)
    (authorization : Option String) (s : FileState) (h : _auth_ok authorization = true) :
    (post_avg_speed r authorization s).2 = .ok ∧
    _load_reports (post_avg_speed r authorization s).1
      = _load_reports s ++ [serializeReport r] := by
  constructor
  · simp [post_avg_speed, h]
  · cases s <;> simp [post_avg_speed, h, _load_reports]

/-- Witness for C8 amended at the reversed-timestamp report. -/
theorem post_ignores_timestamp_order_witness :
    (post_avg_speed reversedReport none .absent).2 = .ok ∧
    _load_reports (post_avg_speed reversedReport none .absent).1
      = _load_reports .absent ++ [serializeReport reversedReport] :=
  post_ignores_timestamp_order reversedReport none .absent rfl

/-- C9: duplicate-route equivalence. The four directly registered
admin handlers and their router-registered duplicates are equal as
functions, on every store state, every limit/since/segment input and
every fromisoformat model; the listing, stats and export handlers of
both families are read-only by construction, and the two clear
handlers produce identical store effects and responses. -/
theorem duplicate_routes_equal :
    list_reports2 = list_reports ∧
    reports_stats2 = reports_stats ∧
    export_reports_csv2 = export_reports_csv ∧
    clear_reports2 = clear_reports :=
  ⟨rfl, rfl, rfl, rfl⟩

/-- C10 counterexample: over a reachable store holding one record with
a naive start and an aware end timestamp, the duration loop raises
TypeError, so the query with limit 0 answers with an HTTP 500 rather
than returning the entire sorted sequence. -/
theorem mixed_awareness_cex :
    list_reports fromisoCommon 0 none none (.parsed [mixedReport]) = .error500 := by
  decide

/-- C10 amended: for every model of fromisoformat and every listing
call whose pre-slice pipeline completes without an exception, limit 0
returns the entire sorted sequence rather than zero records (the slice
items[-0:] is items[0:]), and a negative limit drops that many records
from the front of the sorted sequence instead of returning that many
most-recent records. (As stated over every store, the claim fails on
stores whose records mix naive and aware timestamps, where the query
raises before slicing.) -/
theorem limit_zero_and_negative (fromiso : List Char → Option PyDT)
    (since segment : Option String) (s : FileState) (sorted : List OutReport)
    (hs : sortedOut fromiso since segment s = some sorted) :
    list_reports fromiso 0 since segment s = .ok sorted ∧
    (∀ limit : Int, limit < 0 →
      list_reports fromiso limit since segment s = .ok (sorted.drop (-limit).toNat)) := by
  constructor
  · rw [list_reports_of_sortedOut hs 0]
    rfl
  · intro limit h
    rw [list_reports_of_sortedOut hs limit]
    unfold pySliceFrom
    rw [if_pos (by omega : (0:Int) ≤ -limit)]

/-- Witness for C10 amended at limit -2 over a two-element store. -/
theorem limit_zero_and_negative_witness :
    list_reports fromisoCommon (-2) none none (.parsed [goodReport, badReport])
      = .ok (([goodOut, badOut] : List OutReport).drop (-(-2 : Int)).toNat) :=
  (limit_zero_and_negative fromisoCommon none none (.parsed [goodReport, badReport])
    [goodOut, badOut] (by decide)).2 (-2) (by decide)

end YettelMock
